import Mathlib

/-!
# SeedUp — verification of the Resumable Transfer Orchestration Core

A shallow embedding, in Lean 4, of the orchestration layer of the SeedUp
repository (`torrent_downloader.py`, `gdrive_uploader.py`), together with
theorems settling the specification's claims about it.

Modelling conventions:
* The filesystem slot holding the session file is an explicit value
  `Option (List Nat)` (absent, or present with byte content); functions that
  mutate it return the new value.
* External collaborators (the libtorrent bindings, the Drive API) are
  oracles: records of pure functions describing the observable result of
  each call, including its failure modes.
* A Python call that can raise is embedded either as an `Option`/sum result
  (when the source catches the error at that boundary) or as a `PyResult`
  (when the claim is about whether an exception escapes).
-/

namespace SeedUp

/-- Outcome of running a Python block: a normal return or a raised exception
that escaped it. -/
inductive PyResult (α : Type) where
  | ok (val : α)
  | raised (msg : String)
deriving DecidableEq

/-! ## Session persistence (`torrent_downloader.py`, lines 36–65 and 224–238)

Session-file content is modelled as a byte list `List Nat`; the libtorrent
bindings are an oracle saying which byte strings `lt.bdecode` +
`ses.load_state` accept (on the bytes it rejects, those calls raise
`RuntimeError`/`ValueError`, which `load_session` catches). -/

/-- Oracle for the libtorrent bindings used by `load_session`. -/
structure LtEngine where
  decodeOk : List Nat → Bool

/-- An engine handle: a fresh `lt.session()` or one restored from saved
state via `load_state`. -/
inductive Session where
  | fresh
  | restored (data : List Nat)
deriving DecidableEq

/-- Function `load_session` (torrent_downloader.py:47–65). Input: the current session
file slot. Output: the session file slot after the call, and the returned
handle. An absent file yields a fresh session; an empty file raises
`ValueError` inside the `try`, and undecodable bytes make the bindings raise
— both are caught, the file is removed (`os.remove`) and a fresh session is
returned. On success the file is left in place. -/
def load_session (eng : LtEngine) (sessionFile : Option (List Nat)) :
    Option (List Nat) × Session :=
  match sessionFile with
  | none => (none, Session.fresh)
  | some data =>
    if data = [] then (none, Session.fresh)
    else if eng.decodeOk data then (some data, Session.restored data)
    else (none, Session.fresh)

/-- Environment for one `save_session` call: the bytes
`lt.bencode(session.save_state())` would produce, and whether the
open/serialize/write sequence raises. -/
structure SaveEnv where
  serialized : List Nat
  writeFails : Bool

/-- Function `save_session` (torrent_downloader.py:36–44). The whole body sits in a
`try` whose `except Exception` only logs, so the call always returns
normally (`PyResult.ok ()`). On a failed write we leave the slot unchanged.
-/
def save_session (env : SaveEnv) (sessionFile : Option (List Nat)) :
    Option (List Nat) × PyResult Unit :=
  if env.writeFails then (sessionFile, PyResult.ok ())
  else (some env.serialized, PyResult.ok ())

/-- One periodic-checkpoint step of the download progress loop
(torrent_downloader.py:186–188): when the wall-clock second is a multiple
of ten (`due`), `save_session` runs; otherwise nothing happens. -/
def checkpoint_step (due : Bool) (env : SaveEnv) (sessionFile : Option (List Nat)) :
    Option (List Nat) × PyResult Unit :=
  if due then save_session env sessionFile else (sessionFile, PyResult.ok ())

/-- Function `clear_session` (torrent_downloader.py:224–238). `removeFails` says
whether `os.remove` raises on the present file; absence of the file is
reported as success (`true`) without touching the filesystem. -/
def clear_session (removeFails : Bool) (sessionFile : Option (List Nat)) :
    Option (List Nat) × Bool :=
  match sessionFile with
  | none => (none, true)
  | some data =>
    if removeFails then (some data, false) else (none, true)

/-! ## Download progress monitor (`torrent_downloader.py`, lines 138–190)

Each tick reads a `TransferStatus` snapshot. We embed the two per-tick
derivations the claims are about: the ETA string (lines 143–158) and the
phase label together with the `is_resuming` flag update (lines 171–178). -/

/-- One `handle.status()` snapshot, with the fields the monitor reads.
`progress` is the fraction in `[0,1]` (`s.progress`); the label logic uses
`progress * 100`. Rates and byte counts are integers. -/
structure TransferStatus where
  progress : ℚ
  downloadRate : ℤ
  numPeers : ℤ
  numSeeds : ℤ
  totalWanted : ℤ
  totalDone : ℤ

/-- Python `int()` applied to a real value: truncation toward zero. -/
def pyTrunc (q : ℚ) : ℤ := if 0 ≤ q then ⌊q⌋ else ⌈q⌉

/-- Python `%` on floats with our rational model: `a % b = a - b * ⌊a / b⌋`
(the result has the sign of the divisor; we only use positive divisors). -/
def pyFMod (a b : ℚ) : ℚ := a - b * ⌊a / b⌋

/-- ETA rendering of one tick (torrent_downloader.py:143–158). `eta_str`
defaults to `"N/A"` and is recomputed only when `s.download_rate > 0`, as
`(total_wanted - total_done) / download_rate` seconds, formatted
`"{int(eta)}s"` under a minute, `"{int(eta/60)}m {int(eta%60)}s"` under an
hour, and `"{int(eta/3600)}h {int((eta%3600)/60)}m"` otherwise. -/
def eta_string (s : TransferStatus) : String :=
  if 0 < s.downloadRate then
    let eta : ℚ := ((s.totalWanted - s.totalDone : ℤ) : ℚ) / ((s.downloadRate : ℤ) : ℚ)
    if eta < 60 then
      toString (pyTrunc eta) ++ "s"
    else if eta < 3600 then
      toString (pyTrunc (eta / 60)) ++ "m " ++ toString (pyTrunc (pyFMod eta 60)) ++ "s"
    else
      toString (pyTrunc (eta / 3600)) ++ "h " ++ toString (pyTrunc (pyFMod eta 3600 / 60)) ++ "m"
  else "N/A"

/-- The specification's description of the ETA derivation (§4.2), with the
rate-zero marker amended to the code's literal `"N/A"`: the ETA in whole
seconds is `(totalWantedBytes − totalDoneBytes) / downloadRateBytesPerSec`
when the rate is positive, rendered `Ns` under 60 seconds, `Mm Ss` under an
hour, and `Hh Mm` otherwise, with minutes/seconds/hours extracted from the
whole-second count by integer division and remainder. -/
def eta_string_spec (s : TransferStatus) : String :=
  if 0 < s.downloadRate then
    let secs : ℤ := pyTrunc (((s.totalWanted - s.totalDone : ℤ) : ℚ) / ((s.downloadRate : ℤ) : ℚ))
    if secs < 60 then
      toString secs ++ "s"
    else if secs < 3600 then
      toString (secs / 60) ++ "m " ++ toString (secs % 60) ++ "s"
    else
      toString (secs / 3600) ++ "h " ++ toString (secs % 3600 / 60) ++ "m"
  else "N/A"

/-- Per-tick phase-label computation and `is_resuming` update
(torrent_downloader.py:171–178). Returns the printed label and the flag
value carried to the next tick. The code literal for the spec's schematic
`"Resuming"` phase is `"Resuming Download"`. -/
def label_step (isResuming : Bool) (s : TransferStatus) : String × Bool :=
  if isResuming = true ∧ s.progress * 100 < 95 then ("Resuming Download", isResuming)
  else if s.downloadRate = 0 ∧ s.numPeers = 0 then ("Connecting to Peers", isResuming)
  else ("Download Progress", false)

/-- Labels printed by a run of consecutive ticks, starting from flag `r`. -/
def label_run (r : Bool) : List TransferStatus → List String
  | [] => []
  | s :: rest => (label_step r s).1 :: label_run (label_step r s).2 rest

/-- The `is_resuming` flag after processing a list of ticks from flag `r`. -/
def resuming_after (r : Bool) (ticks : List TransferStatus) : Bool :=
  ticks.foldl (fun b s => (label_step b s).2) r

/-! ## Upload tree orchestrator (`gdrive_uploader.py`)

The local tree is a value: `FSNode.file name size` or
`FSNode.dir name children` (children in `os.listdir` order). Local paths
are component lists; a node reached by the traversal has
`os.path.basename local_path` equal to its own `name`, so the embedding
uses the node's name where the source calls `os.path.basename`. The Drive
API is an oracle `DriveService`; Python truthiness of id strings (`if
folder_id:`) is `pyTruthy`, under which `None` and `''` are falsy. -/

/-- A local filesystem tree. File sizes are `os.path.getsize` values. -/
inductive FSNode where
  | file (name : String) (size : Nat)
  | dir (name : String) (children : List FSNode)

/-- The name (basename) of a node. -/
def FSNode.name : FSNode → String
  | .file n _ => n
  | .dir n _ => n

/-- Result of the `files().list` query issued by `file_exists`
(gdrive_uploader.py:169–187): the first matching remote node's fields, no
match, or an `HttpError` raised by the transport. -/
inductive FileQueryResult where
  | found (id : String) (size : Nat)
  | absent
  | httpError
deriving DecidableEq

/-- Oracle for the Drive API calls the uploader makes. `fileQuery name
parentId` is the existence query by `(name, parentId)`; `folderQuery` is
the same for folders (its `HttpError` case is already folded to `none`,
exactly what `folder_exists` returns after its `except`);
`createFolderNew` and `uploadNew` are the creation / media-upload calls,
`none` meaning the call failed (exception caught and logged). -/
structure DriveService where
  fileQuery : String → String → FileQueryResult
  folderQuery : String → String → Option String
  createFolderNew : String → String → Option String
  uploadNew : List String → String → Option String

/-- Python truthiness of an optional id string: `None` and `''` are falsy. -/
def pyTruthy : Option String → Bool
  | none => false
  | some s => s != ""

/-- Method `SimpleDriveUploader.file_exists` (gdrive_uploader.py:158–187): returns
the first match's info, and `None` both for no match and on `HttpError`
(the `except HttpError` branch logs and returns `None`). -/
def file_exists (d : DriveService) (fileName parentId : String) : Option (String × Nat) :=
  match d.fileQuery fileName parentId with
  | .found i sz => some (i, sz)
  | .absent => none
  | .httpError => none

/-- Method `SimpleDriveUploader.folder_exists` (gdrive_uploader.py:189–219). -/
def folder_exists (d : DriveService) (folderName parentId : String) : Option String :=
  d.folderQuery folderName parentId

/-- The uploader's configuration state (`SimpleDriveUploader.__init__`).
After a successful `__init__`, `seedup_folder_id` is truthy whenever
`use_seedup_folder` is set (otherwise `__init__` raises). -/
structure Uploader where
  skip_existing : Bool
  use_seedup_folder : Bool
  seedup_folder_id : Option String

/-- Method `SimpleDriveUploader.upload_file` (gdrive_uploader.py:221–274): with
dedup on, re-checks existence and returns the existing id; otherwise runs
the resumable upload, whose failure (`HttpError` or other) yields `None`. -/
def upload_file (u : Uploader) (d : DriveService) (localPath : List String)
    (fileName parentId : String) : Option String :=
  if u.skip_existing then
    match file_exists d fileName parentId with
    | some info => some info.1
    | none => d.uploadNew localPath parentId
  else d.uploadNew localPath parentId

/-- Method `SimpleDriveUploader.create_folder` (gdrive_uploader.py:276–307):
get-or-create — with dedup on, a truthy `folder_exists` id is returned
as-is; otherwise the folder is created (`none` on failure). -/
def create_folder (u : Uploader) (d : DriveService) (folderName parentId : String) :
    Option String :=
  if u.skip_existing && pyTruthy (folder_exists d folderName parentId) then
    folder_exists d folderName parentId
  else d.createFolderNew folderName parentId

mutual

/-- File count of `SimpleDriveUploader.count_items`
(gdrive_uploader.py:309–344): 1 for a file; for a directory, the number of
files anywhere under it (`os.walk` sums `len(filenames)` over all levels).
-/
def countFiles : FSNode → Nat
  | .file _ _ => 1
  | .dir _ cs => countFilesList cs

/-- Total `countFiles` over a sibling list. -/
def countFilesList : List FSNode → Nat
  | [] => 0
  | c :: cs => countFiles c + countFilesList cs

end

/-- The shared mutable counters `_uploaded_size[0]`, `_file_count[0]`,
`_file_count[1]` threaded by reference through the recursion. -/
structure ProgressAggregate where
  uploadedBytes : Nat
  completedFiles : Nat
  totalFiles : Nat
deriving DecidableEq

/-- The `results` dictionary of one `upload_to_drive` call. -/
structure UploadOutcome where
  success : List (List String)
  failed : List (List String)
  skipped : List (List String)
  root_folder_id : String
deriving DecidableEq

/-- The leaf (file) case of `upload_to_drive` (gdrive_uploader.py:399–427):
with dedup on, a name match under the parent is recorded as skipped;
otherwise `upload_file` runs and the path is recorded as success or failed
by the truthiness of the returned id. In either branch the shared
aggregate gains `file_size` bytes and one completed file (`_progress_bar`
is always truthy here). `root_folder_id` keeps the value it was given at
entry, the parent id. -/
def upload_leaf (u : Uploader) (d : DriveService) (localPath : List String)
    (fileName : String) (size : Nat) (parentId : String) (agg : ProgressAggregate) :
    UploadOutcome × ProgressAggregate :=
  let existing := if u.skip_existing then file_exists d fileName parentId else none
  let agg' : ProgressAggregate :=
    { agg with uploadedBytes := agg.uploadedBytes + size,
               completedFiles := agg.completedFiles + 1 }
  match existing with
  | some _ =>
    ({ success := [], failed := [], skipped := [localPath], root_folder_id := parentId }, agg')
  | none =>
    if pyTruthy (upload_file u d localPath fileName parentId) then
      ({ success := [localPath], failed := [], skipped := [], root_folder_id := parentId }, agg')
    else
      ({ success := [], failed := [localPath], skipped := [], root_folder_id := parentId }, agg')

mutual

/-- The recursive body of `SimpleDriveUploader.upload_to_drive`
(gdrive_uploader.py:399–456), i.e. every call after the first-call
initialization block: the local node exists and `_progress_bar` is set.
Returns this call's fresh `results` dictionary and the updated shared
aggregate. In the directory case a truthy created/found folder id becomes
this call's own `root_folder_id` and the children are uploaded under it,
their `success`/`failed`/`skipped` lists concatenated in listing order
(their `root_folder_id`s are discarded); a falsy folder id marks the one
directory path as failed with no descent. -/
def upload_to_drive_rec (u : Uploader) (d : DriveService) (node : FSNode)
    (localPath : List String) (parentId : String) (agg : ProgressAggregate) :
    UploadOutcome × ProgressAggregate :=
  match node with
  | .file fileName size => upload_leaf u d localPath fileName size parentId agg
  | .dir folderName children =>
    let fid? := create_folder u d folderName parentId
    if pyTruthy fid? then
      let sub := upload_children u d children localPath (fid?.getD "") agg
      ({ success := sub.1.1, failed := sub.1.2.1, skipped := sub.1.2.2,
         root_folder_id := fid?.getD "" }, sub.2)
    else
      ({ success := [], failed := [localPath], skipped := [], root_folder_id := parentId }, agg)

/-- The `for item in os.listdir(local_path)` loop of the directory case
(gdrive_uploader.py:440–445): recurse into each child under the new folder
id, threading the aggregate, and concatenate the three outcome lists. -/
def upload_children (u : Uploader) (d : DriveService) (children : List FSNode)
    (dirPath : List String) (folderId : String) (agg : ProgressAggregate) :
    (List (List String) × List (List String) × List (List String)) × ProgressAggregate :=
  match children with
  | [] => (([], [], []), agg)
  | c :: cs =>
    let r := upload_to_drive_rec u d c (dirPath ++ [c.name]) folderId agg
    let rest := upload_children u d cs dirPath folderId r.2
    ((r.1.success ++ rest.1.1, r.1.failed ++ rest.1.2.1, r.1.skipped ++ rest.1.2.2), rest.2)

end

/-- The destination parent resolved by the first-call initialization block
(gdrive_uploader.py:374–378): a truthy SeedUp-folder id replaces the given
parent when `use_seedup_folder` is set. -/
def effective_parent (u : Uploader) (parentId : String) : String :=
  if u.use_seedup_folder && pyTruthy u.seedup_folder_id then
    u.seedup_folder_id.getD ""
  else parentId

/-- The outermost `upload_to_drive` call (gdrive_uploader.py:346–464).
`localNode` is the tree at `local_path`, or `none` when the path does not
exist — that case records the one failed path and returns before the
initialization block touches the aggregate (we return zeroed counters for
it). Otherwise the SeedUp folder substitution is applied, the pre-scan
fills `totalFiles`, the shared counters reset to zero, and the recursive
body runs. -/
def upload_to_drive (u : Uploader) (d : DriveService) (localNode : Option FSNode)
    (localPath : List String) (parentId : String) : UploadOutcome × ProgressAggregate :=
  match localNode with
  | none =>
    ({ success := [], failed := [localPath], skipped := [], root_folder_id := parentId },
     { uploadedBytes := 0, completedFiles := 0, totalFiles := 0 })
  | some node =>
    let pid := effective_parent u parentId
    let agg0 : ProgressAggregate :=
      { uploadedBytes := 0, completedFiles := 0, totalFiles := countFiles node }
    upload_to_drive_rec u d node localPath pid agg0

mutual

/-- The structural-success predicate of the claims: every remote folder
get-or-create performed by the traversal of `node` under `parentId`
returns a truthy id. -/
def allOk (u : Uploader) (d : DriveService) : FSNode → String → Bool
  | .file _ _, _ => true
  | .dir folderName cs, parentId =>
    let fid? := create_folder u d folderName parentId
    pyTruthy fid? && allOkList u d cs (fid?.getD "")

/-- Predicate `allOk` over a sibling list under one folder id. -/
def allOkList (u : Uploader) (d : DriveService) : List FSNode → String → Bool
  | [], _ => true
  | c :: cs, pid => allOk u d c pid && allOkList u d cs pid

end

/-! ## Claims about the session persistence manager -/

/-- Claim C4. For every session path, `load` returns a fresh engine handle
when the file is absent, and when the file is present but empty or
undecodable it deletes the corrupt file and returns a fresh handle; the
embedding is a total function, so no error escapes this boundary. -/
theorem load_session_fresh_on_corrupt (eng : LtEngine) (fs : Option (List Nat))
    (h : fs = none ∨ ∃ data, fs = some data ∧ (data = [] ∨ eng.decodeOk data = false)) :
    load_session eng fs = (none, Session.fresh) := by
  rcases h with rfl | ⟨data, rfl, h⟩
  · rfl
  · rcases h with rfl | h
    · rfl
    · simp [load_session, h]

/-- Witness for C4: a zero-length-like corrupt file (undecodable bytes) and
an absent file both yield `(none, fresh)`. -/
theorem load_session_fresh_on_corrupt_witness :
    load_session ⟨fun _ => false⟩ (some [1, 2]) = (none, Session.fresh) ∧
    load_session ⟨fun _ => false⟩ none = (none, Session.fresh) :=
  ⟨load_session_fresh_on_corrupt ⟨fun _ => false⟩ (some [1, 2])
      (Or.inr ⟨[1, 2], rfl, Or.inr rfl⟩),
   load_session_fresh_on_corrupt ⟨fun _ => false⟩ none (Or.inl rfl)⟩

/-- Claim C8. `clear` is idempotent: on an already-absent session file it
reports success (`true`) without touching the filesystem, and a second
`clear` right after a first one leaves both the filesystem slot and the
reported result exactly as the first call left them. -/
theorem clear_session_idempotent (removeFails : Bool) (fs : Option (List Nat)) :
    clear_session removeFails none = (none, true) ∧
    clear_session removeFails (clear_session removeFails fs).1 =
      clear_session removeFails fs := by
  refine ⟨rfl, ?_⟩
  rcases fs with _ | data
  · rfl
  · by_cases h : removeFails <;> simp [clear_session, h]

/-- Claim C9. `save` never propagates an exception: whatever the
serialization/write attempt does, `save_session` returns normally, and so
does the periodic-checkpoint step of the download progress loop — a failed
checkpoint cannot abort the loop. -/
theorem save_session_never_raises (due : Bool) (env : SaveEnv) (fs : Option (List Nat)) :
    (save_session env fs).2 = PyResult.ok () ∧
    (checkpoint_step due env fs).2 = PyResult.ok () := by
  cases due <;> by_cases h : env.writeFails <;>
    simp [save_session, checkpoint_step, h]

/-! ## Claims about the download progress monitor -/

/-- Claim C2 as stated: in any run, once some tick observes a positive
download rate, no tick after it displays the resuming label. -/
def resuming_monotone_claim : Prop :=
  ∀ (init : Bool) (pre : List TransferStatus) (t : TransferStatus)
    (suf : List TransferStatus),
    0 < t.downloadRate →
    "Resuming Download" ∉ label_run (resuming_after init (pre ++ [t])) suf

/-- Claim C2, counterexample. A resumed run at 0% progress: the first tick
observes rate 50 > 0 (and still prints the resuming label, since
`is_resuming` is only cleared in the `else` branch), and the next tick,
back at rate 0, prints the resuming label again. -/
theorem resuming_monotone_counterexample : ¬ resuming_monotone_claim := by
  intro h
  have h1 := h true [] ⟨0, 50, 1, 1, 1000, 100⟩ [⟨0, 0, 1, 1, 1000, 100⟩] (by norm_num)
  apply h1
  norm_num [resuming_after, label_run, label_step]

/-- Claim C2, amended. The flag that suppresses the resuming label is cleared
exactly when a tick displays the active-download label `"Download
Progress"` (which requires the resumed session to have reached 95%
progress, or the session not to be resuming, and rate and peers not both
zero) — not when a tick merely observes a positive rate. Once a tick
displays `"Download Progress"`, no later tick of the run displays
`"Resuming Download"`, even if the rate returns to 0. -/
theorem resuming_label_clears_on_active (init : Bool) (pre : List TransferStatus)
    (t : TransferStatus) (suf : List TransferStatus)
    (h : (label_step (resuming_after init pre) t).1 = "Download Progress") :
    "Resuming Download" ∉ label_run (resuming_after init (pre ++ [t])) suf := by
  have key : ∀ (r : Bool) (s : TransferStatus),
      (label_step r s).1 = "Download Progress" → (label_step r s).2 = false := by
    intro r s hd
    unfold label_step at hd ⊢
    by_cases h1 : r = true ∧ s.progress * 100 < 95
    · rw [if_pos h1] at hd
      simp at hd
    · by_cases h2 : s.downloadRate = 0 ∧ s.numPeers = 0
      · rw [if_neg h1, if_pos h2] at hd
        simp at hd
      · rw [if_neg h1, if_neg h2]
  have run_false : ∀ l : List TransferStatus, "Resuming Download" ∉ label_run false l := by
    intro l
    induction l with
    | nil => simp [label_run]
    | cons s rest ih =>
      have hstep : (label_step false s).2 = false ∧
          (label_step false s).1 ≠ "Resuming Download" := by
        unfold label_step
        by_cases h2 : s.downloadRate = 0 ∧ s.numPeers = 0
        · rw [if_neg (by simp), if_pos h2]
          exact ⟨rfl, by simp⟩
        · rw [if_neg (by simp), if_neg h2]
          exact ⟨rfl, by simp⟩
      rw [label_run, hstep.1]
      intro hmem
      rcases List.mem_cons.mp hmem with heq | hmem'
      · exact hstep.2 heq.symm
      · exact ih hmem'
  have happ : resuming_after init (pre ++ [t]) =
      (label_step (resuming_after init pre) t).2 := by
    simp [resuming_after, List.foldl_append]
  rw [happ, key _ _ h]
  exact run_false suf

/-- Witness for C2 (amended): a resumed run that reaches 100% progress at
rate 50 displays `"Download Progress"`, and a following rate-0 tick does
not display `"Resuming Download"`. -/
theorem resuming_label_clears_on_active_witness :
    (label_step (resuming_after true []) ⟨1, 50, 1, 1, 1000, 1000⟩).1 =
      "Download Progress" ∧
    "Resuming Download" ∉
      label_run (resuming_after true ([] ++ [⟨1, 50, 1, 1, 1000, 1000⟩]))
        [⟨1, 0, 0, 0, 1000, 1000⟩] :=
  ⟨by norm_num [label_step, resuming_after],
   resuming_label_clears_on_active true [] ⟨1, 50, 1, 1, 1000, 1000⟩
     [⟨1, 0, 0, 0, 1000, 1000⟩] (by norm_num [label_step, resuming_after])⟩

/-- Floor of a rational divided by a positive integer is integer (floor)
division of its floor. -/
theorem eta_floor_div (q : ℚ) (n : ℤ) (hn : 0 < n) : ⌊q / (n : ℚ)⌋ = ⌊q⌋ / n := by
  refine eq_of_forall_le_iff fun z => ?_
  rw [Int.le_floor, le_div_iff₀ (by exact_mod_cast hn), ← Int.cast_mul, ← Int.le_floor,
    ← Int.le_ediv_iff_mul_le hn]

/-- Truncation via `int()` of a nonnegative rational divided by a positive integer. -/
theorem pyTrunc_div (q : ℚ) (hq : 0 ≤ q) (n : ℤ) (hn : 0 < n) :
    pyTrunc (q / (n : ℚ)) = ⌊q⌋ / n := by
  unfold pyTrunc
  rw [if_pos (div_nonneg hq (by exact_mod_cast hn.le)), eta_floor_div q n hn]

/-- Python float `%` by a positive integer divisor is nonnegative. -/
theorem pyFMod_nonneg (q : ℚ) (n : ℤ) (hn : 0 < n) : 0 ≤ pyFMod q (n : ℚ) := by
  have h := Int.sub_floor_div_mul_nonneg q (show (0 : ℚ) < (n : ℚ) by exact_mod_cast hn)
  unfold pyFMod
  rw [mul_comm]
  exact h

/-- Floor of Python float `%` by a positive integer divisor is the `emod`
of the floor. -/
theorem pyFMod_floor (q : ℚ) (n : ℤ) (hn : 0 < n) : ⌊pyFMod q (n : ℚ)⌋ = ⌊q⌋ % n := by
  unfold pyFMod
  have hcast : (n : ℚ) * (⌊q / (n : ℚ)⌋ : ℚ) = ((n * ⌊q / (n : ℚ)⌋ : ℤ) : ℚ) := by
    push_cast
    ring
  rw [hcast, Int.floor_sub_int, eta_floor_div q n hn, Int.emod_def]

/-- Claim C6, counterexample. At download rate 0 the monitor renders the ETA
as the literal `"N/A"`, not `"unknown"` as the claim states. -/
theorem eta_unknown_counterexample :
    eta_string ⟨1, 0, 0, 0, 1000, 500⟩ = "N/A" ∧
    eta_string ⟨1, 0, 0, 0, 1000, 500⟩ ≠ "unknown" := by
  refine ⟨rfl, ?_⟩
  rw [show eta_string ⟨1, 0, 0, 0, 1000, 500⟩ = "N/A" from rfl]
  decide

/-- Claim C6, amended. For every tick with positive rate the rendered ETA is
`(totalWantedBytes − totalDoneBytes) / downloadRateBytesPerSec` seconds,
formatted `Ns` under 60 seconds, `Mm Ss` under an hour and `Hh Mm`
otherwise (the spec-worded formatter `eta_string_spec`), and it is the
literal `"N/A"` — not `"unknown"` — when the rate is 0; in particular
`totalWantedBytes = 1000`, `totalDoneBytes = 500`, rate `50` renders as
`"10s"`. -/
theorem eta_string_matches_spec :
    (∀ s : TransferStatus, eta_string s = eta_string_spec s) ∧
    eta_string ⟨1/2, 50, 3, 1, 1000, 500⟩ = "10s" := by
  constructor
  · intro s
    by_cases hr : 0 < s.downloadRate
    · simp only [eta_string, eta_string_spec, if_pos hr]
      set E : ℚ := ((s.totalWanted - s.totalDone : ℤ) : ℚ) / ((s.downloadRate : ℤ) : ℚ)
        with hE
      by_cases hneg : E < 0
      · have h1 : E < 60 := by linarith
        have h2 : pyTrunc E < 60 := by
          have hle : pyTrunc E ≤ 0 := by
            unfold pyTrunc
            rw [if_neg (not_le.mpr hneg)]
            exact Int.ceil_le.mpr (by exact_mod_cast hneg.le)
          omega
        rw [if_pos h1, if_pos h2]
      · push_neg at hneg
        have hfl : pyTrunc E = ⌊E⌋ := if_pos hneg
        by_cases h60 : E < 60
        · have h60i : ⌊E⌋ < 60 := Int.floor_lt.mpr (by exact_mod_cast h60)
          rw [if_pos h60, hfl, if_pos h60i]
        · push_neg at h60
          have h60i : (60 : ℤ) ≤ ⌊E⌋ := Int.le_floor.mpr (by exact_mod_cast h60)
          rw [if_neg (not_lt.mpr h60), hfl, if_neg (not_lt.mpr h60i)]
          by_cases h36 : E < 3600
          · have h36i : ⌊E⌋ < 3600 := Int.floor_lt.mpr (by exact_mod_cast h36)
            rw [if_pos h36, if_pos h36i,
              show (60 : ℚ) = ((60 : ℤ) : ℚ) from by norm_num,
              pyTrunc_div E hneg 60 (by norm_num),
              show pyTrunc (pyFMod E ((60 : ℤ) : ℚ)) = ⌊E⌋ % 60 from by
                simp only [pyTrunc]
                rw [if_pos (pyFMod_nonneg E 60 (by norm_num)),
                  pyFMod_floor E 60 (by norm_num)]]
          · push_neg at h36
            have h36i : (3600 : ℤ) ≤ ⌊E⌋ := Int.le_floor.mpr (by exact_mod_cast h36)
            rw [if_neg (not_lt.mpr h36), if_neg (not_lt.mpr h36i),
              show (3600 : ℚ) = ((3600 : ℤ) : ℚ) from by norm_num,
              show (60 : ℚ) = ((60 : ℤ) : ℚ) from by norm_num,
              pyTrunc_div E hneg 3600 (by norm_num),
              pyTrunc_div (pyFMod E ((3600 : ℤ) : ℚ))
                (pyFMod_nonneg E 3600 (by norm_num)) 60 (by norm_num),
              pyFMod_floor E 3600 (by norm_num)]
    · simp only [eta_string, eta_string_spec, if_neg hr]
  · unfold eta_string
    norm_num
    rw [show pyTrunc 10 = 10 from by norm_num [pyTrunc]]
    rfl

/-! ## Claims about the upload tree orchestrator -/

/-- Claim C5. In the leaf case with dedup enabled, a local file whose name
matches an existing remote node under the same parent is classified
skipped — never failed or succeeded — whatever its local size and the
remote node's size; and the shared aggregate update `uploadedBytes +=
fileSize; completedFiles += 1` is the same in every leaf branch (skipped
or uploaded), for any drive responses whatsoever. -/
theorem dedup_skips_by_name (u : Uploader) (d : DriveService) (fileName : String)
    (size : Nat) (localPath : List String) (parentId : String) (agg : ProgressAggregate)
    (rid : String) (rsize : Nat)
    (hskip : u.skip_existing = true)
    (hfound : d.fileQuery fileName parentId = .found rid rsize) :
    upload_to_drive_rec u d (.file fileName size) localPath parentId agg =
      ({ success := [], failed := [], skipped := [localPath], root_folder_id := parentId },
       { agg with uploadedBytes := agg.uploadedBytes + size,
                  completedFiles := agg.completedFiles + 1 }) ∧
    (∀ (d' : DriveService) (agg' : ProgressAggregate),
      (upload_to_drive_rec u d' (.file fileName size) localPath parentId agg').2 =
        { agg' with uploadedBytes := agg'.uploadedBytes + size,
                    completedFiles := agg'.completedFiles + 1 }) := by
  constructor
  · simp [upload_to_drive_rec, upload_leaf, hskip, file_exists, hfound]
  · intro d' agg'
    simp only [upload_to_drive_rec, upload_leaf]
    cases hx : (if u.skip_existing then file_exists d' fileName parentId else none) with
    | some i => simp [hx]
    | none =>
      simp only [hx]
      split <;> rfl

/-- Witness for C5: dedup on, remote reports a same-named node of a
different size (99 vs local 5); the file is skipped and the aggregate
moves by 5 bytes / 1 file. -/
theorem dedup_skips_by_name_witness :
    upload_to_drive_rec ⟨true, false, none⟩
        ⟨fun _ _ => .found "rid" 99, fun _ _ => none, fun _ _ => none, fun _ _ => none⟩
        (.file "f" 5) ["f"] "p" ⟨0, 0, 1⟩ =
      ({ success := [], failed := [], skipped := [["f"]], root_folder_id := "p" },
       { uploadedBytes := 0 + 5, completedFiles := 0 + 1, totalFiles := 1 }) :=
  (dedup_skips_by_name ⟨true, false, none⟩
    ⟨fun _ _ => .found "rid" 99, fun _ _ => none, fun _ _ => none, fun _ _ => none⟩
    "f" 5 ["f"] "p" ⟨0, 0, 1⟩ "rid" 99 rfl rfl).1

/-- Claim C7. A directory whose remote folder get-or-create returns a falsy
id is recorded as exactly one failed entry — its own local path — with
empty success/skipped lists, an unchanged aggregate, and no child visited
(the result does not depend on the children at all). -/
theorem dir_create_fail_one_entry (u : Uploader) (d : DriveService)
    (folderName : String) (children : List FSNode) (localPath : List String)
    (parentId : String) (agg : ProgressAggregate)
    (h : pyTruthy (create_folder u d folderName parentId) = false) :
    upload_to_drive_rec u d (.dir folderName children) localPath parentId agg =
      ({ success := [], failed := [localPath], skipped := [], root_folder_id := parentId },
       agg) := by
  simp [upload_to_drive_rec, h]

/-- Witness for C7: folder creation fails over a directory holding a file;
the outcome is the single failed directory path and untouched counters. -/
theorem dir_create_fail_one_entry_witness :
    upload_to_drive_rec ⟨true, false, none⟩
        ⟨fun _ _ => .absent, fun _ _ => none, fun _ _ => none, fun _ _ => some "x"⟩
        (.dir "a" [.file "f" 3]) ["a"] "p" ⟨0, 0, 1⟩ =
      ({ success := [], failed := [["a"]], skipped := [], root_folder_id := "p" },
       (⟨0, 0, 1⟩ : ProgressAggregate)) :=
  dir_create_fail_one_entry ⟨true, false, none⟩
    ⟨fun _ _ => .absent, fun _ _ => none, fun _ _ => none, fun _ _ => some "x"⟩
    "a" [.file "f" 3] ["a"] "p" ⟨0, 0, 1⟩ rfl

/-- Claim C10. When the existence query for a file raises a transport-level
`HttpError`, `file_exists` returns `None`, so the leaf case treats the
file as absent remotely and proceeds to the upload call: it is never
skipped, and it lands in succeeded or failed according to the upload
call's own result. -/
theorem http_error_means_upload (u : Uploader) (d : DriveService) (fileName : String)
    (size : Nat) (localPath : List String) (parentId : String) (agg : ProgressAggregate)
    (h : d.fileQuery fileName parentId = .httpError) :
    file_exists d fileName parentId = none ∧
    (upload_to_drive_rec u d (.file fileName size) localPath parentId agg).1.skipped = [] ∧
    (pyTruthy (d.uploadNew localPath parentId) = true →
      (upload_to_drive_rec u d (.file fileName size) localPath parentId agg).1.success =
        [localPath]) ∧
    (pyTruthy (d.uploadNew localPath parentId) = false →
      (upload_to_drive_rec u d (.file fileName size) localPath parentId agg).1.failed =
        [localPath]) := by
  have hfe : file_exists d fileName parentId = none := by simp [file_exists, h]
  have hup : upload_file u d localPath fileName parentId = d.uploadNew localPath parentId := by
    by_cases hs : u.skip_existing <;> simp [upload_file, hs, hfe]
  have hnone : (if u.skip_existing then file_exists d fileName parentId else none) = none := by
    simp [hfe]
  refine ⟨hfe, ?_, ?_, ?_⟩
  · simp only [upload_to_drive_rec, upload_leaf, hnone]
    split <;> rfl
  · intro ht
    simp [upload_to_drive_rec, upload_leaf, hnone, hup, ht]
  · intro ht
    simp [upload_to_drive_rec, upload_leaf, hnone, hup, ht]

/-- Witness for C10: the query errors, the upload call itself succeeds, and
the file is recorded as succeeded with nothing skipped. -/
theorem http_error_means_upload_witness :
    file_exists
        ⟨fun _ _ => .httpError, fun _ _ => none, fun _ _ => none, fun _ _ => some "id1"⟩
        "f" "p" = none ∧
    (upload_to_drive_rec ⟨true, false, none⟩
        ⟨fun _ _ => .httpError, fun _ _ => none, fun _ _ => none, fun _ _ => some "id1"⟩
        (.file "f" 5) ["f"] "p" ⟨0, 0, 1⟩).1.skipped = [] ∧
    (upload_to_drive_rec ⟨true, false, none⟩
        ⟨fun _ _ => .httpError, fun _ _ => none, fun _ _ => none, fun _ _ => some "id1"⟩
        (.file "f" 5) ["f"] "p" ⟨0, 0, 1⟩).1.success = [["f"]] := by
  have h := http_error_means_upload ⟨true, false, none⟩
    ⟨fun _ _ => .httpError, fun _ _ => none, fun _ _ => none, fun _ _ => some "id1"⟩
    "f" 5 ["f"] "p" ⟨0, 0, 1⟩ rfl
  exact ⟨h.1, h.2.1, h.2.2.1 (by simp [pyTruthy])⟩

/-- A plain uploader: dedup on, no SeedUp-folder substitution. -/
def uploaderPlain : Uploader := ⟨true, false, none⟩

/-- A drive oracle whose folder creation names the new folder's id after
the folder itself, so distinct directories get distinct ids. -/
def driveEcho : DriveService :=
  ⟨fun _ _ => .absent, fun _ _ => none, fun name _ => some name, fun _ _ => some "fileid"⟩

/-- Claim C1, counterexample. Uploading `outer/inner/`: the outer call
creates folder id `"outer"`, the nested call for `inner` creates folder id
`"inner"` (the deepest directory call's folder id), yet the outcome
returned to the caller carries `"outer"` — each recursive call builds a
fresh `results` dictionary and the parent never copies the child's
`root_folder_id`, so the nested root id does not overwrite the parent's as
the claim states. -/
theorem root_id_counterexample :
    (upload_to_drive uploaderPlain driveEcho (some (.dir "outer" [.dir "inner" []]))
        ["outer"] "p").1.root_folder_id = "outer" ∧
    create_folder uploaderPlain driveEcho "inner" "outer" = some "inner" ∧
    ("outer" : String) ≠ "inner" := by
  refine ⟨?_, rfl, by decide⟩
  simp [upload_to_drive, upload_to_drive_rec, upload_children, upload_leaf,
    effective_parent, create_folder, folder_exists, file_exists, pyTruthy,
    uploaderPlain, driveEcho, countFiles, countFilesList]

/-- Claim C1, amended. In upload's directory case, the remote folder id
obtained by get-or-create becomes the outcome's root id for that subtree;
but a nested directory call's root id does not overwrite the parent's
(each recursive call returns a fresh outcome whose root id the parent
discards), so the UploadOutcome returned to the caller carries the
outermost directory call's folder id, whatever the nesting below it. -/
theorem root_id_is_outermost (u : Uploader) (d : DriveService) (folderName : String)
    (children : List FSNode) (localPath : List String) (parentId : String) (fid : String)
    (h : create_folder u d folderName (effective_parent u parentId) = some fid)
    (hfid : fid ≠ "") :
    (upload_to_drive u d (some (.dir folderName children))
        localPath parentId).1.root_folder_id = fid := by
  simp [upload_to_drive, upload_to_drive_rec, h, pyTruthy, hfid]

/-- Witness for C1 (amended): the `outer/inner/` tree's outcome carries
the outermost folder id `"outer"`. -/
theorem root_id_is_outermost_witness :
    (upload_to_drive uploaderPlain driveEcho (some (.dir "outer" [.dir "inner" []]))
        ["outer"] "p").1.root_folder_id = "outer" :=
  root_id_is_outermost uploaderPlain driveEcho "outer" [.dir "inner" []] ["outer"] "p"
    "outer" rfl (by decide)

/-- The per-node counting contract used to prove C3: under structural
success, visiting a node advances `completedFiles` by exactly its pre-scan
file count, the three outcome lists together hold exactly that many
entries, and `totalFiles` is left untouched. -/
def NodeCountSpec (u : Uploader) (d : DriveService) (n : FSNode) : Prop :=
  ∀ (localPath : List String) (parentId : String) (agg : ProgressAggregate),
    allOk u d n parentId = true →
    (upload_to_drive_rec u d n localPath parentId agg).2.completedFiles
        = agg.completedFiles + countFiles n ∧
    (upload_to_drive_rec u d n localPath parentId agg).1.success.length
        + (upload_to_drive_rec u d n localPath parentId agg).1.failed.length
        + (upload_to_drive_rec u d n localPath parentId agg).1.skipped.length
        = countFiles n ∧
    (upload_to_drive_rec u d n localPath parentId agg).2.totalFiles = agg.totalFiles

/-- Lemma: `NodeCountSpec` lifts across a sibling list. -/
theorem upload_children_count (u : Uploader) (d : DriveService) (cs : List FSNode)
    (hall : ∀ c ∈ cs, NodeCountSpec u d c) :
    ∀ (dirPath : List String) (folderId : String) (agg : ProgressAggregate),
    allOkList u d cs folderId = true →
    (upload_children u d cs dirPath folderId agg).2.completedFiles
        = agg.completedFiles + countFilesList cs ∧
    (upload_children u d cs dirPath folderId agg).1.1.length
        + (upload_children u d cs dirPath folderId agg).1.2.1.length
        + (upload_children u d cs dirPath folderId agg).1.2.2.length
        = countFilesList cs ∧
    (upload_children u d cs dirPath folderId agg).2.totalFiles = agg.totalFiles := by
  induction cs with
  | nil =>
    intro dirPath folderId agg _
    simp [upload_children, countFilesList]
  | cons c cs ih =>
    intro dirPath folderId agg hok
    rw [allOkList, Bool.and_eq_true] at hok
    have hc := hall c (List.mem_cons_self c cs) (dirPath ++ [c.name]) folderId agg hok.1
    have htail := ih (fun x hx => hall x (List.mem_cons_of_mem c hx)) dirPath folderId
      (upload_to_drive_rec u d c (dirPath ++ [c.name]) folderId agg).2 hok.2
    simp only [upload_children, countFilesList, List.length_append]
    refine ⟨?_, ?_, ?_⟩
    · rw [htail.1, hc.1]
      omega
    · have := hc.2.1
      have := htail.2.1
      omega
    · rw [htail.2.2, hc.2.2]

/-- Every node satisfies the counting contract (strong induction on the
tree size). -/
theorem nodeCountSpec_all (u : Uploader) (d : DriveService) :
    ∀ n : FSNode, NodeCountSpec u d n := by
  have main : ∀ (k : Nat) (n : FSNode), sizeOf n ≤ k → NodeCountSpec u d n := by
    intro k
    induction k with
    | zero =>
      intro n hn
      exfalso
      cases n <;> simp at hn
    | succ k ih =>
      intro n hn
      match n with
      | .file fileName size =>
        intro localPath parentId agg _
        simp only [upload_to_drive_rec, upload_leaf, countFiles]
        cases hx : (if u.skip_existing then file_exists d fileName parentId else none) with
        | some i => simp [hx]
        | none =>
          simp only [hx]
          split <;> simp
      | .dir folderName children =>
        intro localPath parentId agg hok
        rw [allOk, Bool.and_eq_true] at hok
        have hch : ∀ c ∈ children, NodeCountSpec u d c := by
          intro c hcmem
          apply ih
          have h1 : sizeOf c < sizeOf children := List.sizeOf_lt_of_mem hcmem
          have h2 : sizeOf children < sizeOf (FSNode.dir folderName children) := by
            rw [FSNode.dir.sizeOf_spec]
            omega
          omega
        have hc := upload_children_count u d children hch localPath
          ((create_folder u d folderName parentId).getD "") agg hok.2
        simp only [upload_to_drive_rec, countFiles, hok.1, if_true]
        exact hc
  intro n
  exact main (sizeOf n) n le_rfl

/-- Claim C3. For every local tree whose root exists and whose traversal
meets no structural failure (every remote folder get-or-create returns a
truthy id), the completed upload satisfies `completedFiles = totalFiles`
and `succeeded.length + failed.length + skipped.length = totalFiles`,
where `totalFiles` is the pre-scan file count of the tree. -/
theorem upload_aggregate_invariant (u : Uploader) (d : DriveService) (node : FSNode)
    (localPath : List String) (parentId : String)
    (h : allOk u d node (effective_parent u parentId) = true) :
    (upload_to_drive u d (some node) localPath parentId).2.completedFiles
        = (upload_to_drive u d (some node) localPath parentId).2.totalFiles ∧
    (upload_to_drive u d (some node) localPath parentId).1.success.length
        + (upload_to_drive u d (some node) localPath parentId).1.failed.length
        + (upload_to_drive u d (some node) localPath parentId).1.skipped.length
        = (upload_to_drive u d (some node) localPath parentId).2.totalFiles ∧
    (upload_to_drive u d (some node) localPath parentId).2.totalFiles = countFiles node := by
  have hs := nodeCountSpec_all u d node localPath (effective_parent u parentId)
    ⟨0, 0, countFiles node⟩ h
  simp only [upload_to_drive]
  refine ⟨?_, ?_, ?_⟩
  · rw [hs.1, hs.2.2]
    simp
  · rw [hs.2.1, hs.2.2]
  · rw [hs.2.2]

/-- A demonstration tree: a directory with one file and one nested
directory holding a zero-byte file. -/
def nodeDemo : FSNode := .dir "a" [.file "f" 5, .dir "b" [.file "g" 0]]

/-- Witness for C3: on `nodeDemo` with an always-succeeding drive, the
completed counter equals the pre-scan total 2 and the three lists hold two
entries between them. -/
theorem upload_aggregate_invariant_witness :
    (upload_to_drive uploaderPlain driveEcho (some nodeDemo) ["a"] "p").2.completedFiles
        = (upload_to_drive uploaderPlain driveEcho (some nodeDemo) ["a"] "p").2.totalFiles ∧
    (upload_to_drive uploaderPlain driveEcho (some nodeDemo) ["a"] "p").1.success.length
        + (upload_to_drive uploaderPlain driveEcho (some nodeDemo) ["a"] "p").1.failed.length
        + (upload_to_drive uploaderPlain driveEcho (some nodeDemo) ["a"] "p").1.skipped.length
        = (upload_to_drive uploaderPlain driveEcho (some nodeDemo) ["a"] "p").2.totalFiles ∧
    (upload_to_drive uploaderPlain driveEcho (some nodeDemo) ["a"] "p").2.totalFiles
        = countFiles nodeDemo :=
  upload_aggregate_invariant uploaderPlain driveEcho nodeDemo ["a"] "p"
    (by simp [nodeDemo, allOk, allOkList, create_folder, folder_exists, pyTruthy,
      effective_parent, uploaderPlain, driveEcho])

end SeedUp
